import Mathlib

/-!
Verification of the skool_dash dashboard (src/skool_dash.py) against its
specification. The Python program is a linear streamlit script; the parts the
claims are about (query construction, cached reading, pagination, statistics)
are embedded shallowly below: SQL query text is built exactly as the Python
string concatenation does, the semantics of the produced WHERE clauses is
given by a condition list evaluated over an in-memory table, machine state
(the streamlit cache, the session page number) is passed explicitly, and
pandas aggregates over possibly-empty data are Option-valued (pandas NaN on
an empty series corresponds to none, which Python string formatting renders
as the text "nan").
-/

set_option maxHeartbeats 1000000

namespace SkoolDash

/-- Record: one row of the skool_data table, with the columns selected by
filter_data (line 31 of skool_dash.py). The second column is spelled
community_mame in the source (and consistently so at line 92), so that is
the schema's actual name. free is stored as an integer flag (1 = free),
price as text (either a numeral or the literal marker "Paid"). -/
structure Record where
  topic : String
  community_mame : String
  link : String
  all_skool_ranking : Int
  free : Nat
  theme_rank : Int
  visibility : String
  members : Nat
  price : String
  description : String
deriving DecidableEq, Repr

/-- Boolean list-prefix test, used to state facts about query text. -/
def listPre : List Char → List Char → Bool
  | [], _ => true
  | _ :: _, [] => false
  | a :: as, b :: bs => a == b && listPre as bs

/-- Boolean substring test on character lists. -/
def listSub (n : List Char) : List Char → Bool
  | [] => listPre n []
  | c :: t => listPre n (c :: t) || listSub n t

/-- Fuelled SQL LIKE matcher: percent matches any character sequence,
underscore matches exactly one character, any other pattern character
matches itself. (SQLite's default LIKE is additionally ASCII
case-insensitive; the claims settled here do not depend on that, and the
witnesses below avoid letters whose case could matter.) -/
def likeMatchF : Nat → List Char → List Char → Bool
  | 0, _, _ => false
  | _ + 1, [], s => s.isEmpty
  | f + 1, '%' :: ps, s =>
      likeMatchF f ps s ||
        (match s with
         | [] => false
         | _ :: t => likeMatchF f ('%' :: ps) t)
  | f + 1, '_' :: ps, s =>
      (match s with
       | [] => false
       | _ :: t => likeMatchF f ps t)
  | f + 1, p :: ps, s =>
      (match s with
       | [] => false
       | c :: t => (p == c) && likeMatchF f ps t)

/-- SQL LIKE matching of a pattern against a string; the fuel
`pattern length + string length + 1` dominates the recursion depth, each
step of which consumes a pattern or a string character. -/
def likeMatch (p s : List Char) : Bool :=
  likeMatchF (p.length + s.length + 1) p s

/-! ### Query Builder (filter_data, lines 29-46)

The Python function accumulates a SQL text and a parameter list:
base query, then an `AND topic IN (?,...,?)` clause when topics were
selected, then an `AND description LIKE ?` clause when a search term was
given, then an `AND free = 0/1` clause when exactly one price type was
selected. The text side is reproduced verbatim; the semantic side is a
list of conditions evaluated against a Record. -/

/-- Base query of filter_data: the Python triple-quoted string of
lines 30-33, including its leading newline and indentation. -/
def base_query : String :=
  "\n    SELECT topic, community_mame, link, all_skool_ranking, free, theme_rank, visibility, members, price, description\n    FROM skool_data WHERE 1=1\n    "

/-- The comma-joined placeholder list of line 36 of the source:
the result of joining n copies of the question-mark placeholder with
commas, as Python's join of a replicated list produces. -/
def placeholders : Nat → String
  | 0 => ""
  | 1 => "?"
  | n + 2 => "?," ++ placeholders (n + 1)

/-- Topic clause of line 36: AND topic IN followed by n placeholders. -/
def topic_clause (n : Nat) : String :=
  " AND topic IN (" ++ placeholders n ++ ")"

/-- Search clause of line 39. -/
def search_clause : String :=
  " AND description LIKE ?"

/-- Price clause of lines 41-45: appended only when the price selection is
non-empty and contains exactly one of Free and Paid. -/
def price_clause (price_filter : List String) : String :=
  if price_filter = [] then ""
  else if "Free" ∈ price_filter ∧ "Paid" ∉ price_filter then " AND free = 1"
  else if "Paid" ∈ price_filter ∧ "Free" ∉ price_filter then " AND free = 0"
  else ""

/-- Query text and parameter list built by filter_data: each if-branch of
the Python function appends its clause to the text and its values to the
parameter list, in source order (topics, then the LIKE pattern; the price
clause adds no parameter). -/
def filter_data_query (topics : List String) (search_term : String)
    (price_filter : List String) : String × List String :=
  (base_query
      ++ (if topics = [] then "" else topic_clause topics.length)
      ++ (if search_term = "" then "" else search_clause)
      ++ price_clause price_filter,
   (if topics = [] then [] else topics)
      ++ (if search_term = "" then [] else ["%" ++ search_term ++ "%"]))

/-- One WHERE condition of the built query. -/
inductive Cond where
  | topicIn : List String → Cond
  | descLike : String → Cond
  | freeEq : Nat → Cond
deriving DecidableEq, Repr

/-- Price conditions, mirroring price_clause semantically. -/
def price_conds (price_filter : List String) : List Cond :=
  if price_filter = [] then []
  else if "Free" ∈ price_filter ∧ "Paid" ∉ price_filter then [Cond.freeEq 1]
  else if "Paid" ∈ price_filter ∧ "Free" ∉ price_filter then [Cond.freeEq 0]
  else []

/-- The conditions of the query built by filter_data, in source order. -/
def filter_conds (topics : List String) (search_term : String)
    (price_filter : List String) : List Cond :=
  (if topics = [] then [] else [Cond.topicIn topics])
    ++ (if search_term = "" then []
        else [Cond.descLike ("%" ++ search_term ++ "%")])
    ++ price_conds price_filter

/-- Evaluation of one condition on a row: topic IN tests set membership,
description LIKE uses the wildcard matcher, free = b tests the flag. -/
def evalCond (r : Record) : Cond → Bool
  | Cond.topicIn ts => ts.contains r.topic
  | Cond.descLike pat => likeMatch pat.data r.description.data
  | Cond.freeEq b => r.free == b

/-- Rows returned by filter_data over an in-memory table db: the rows
satisfying every condition of the built query (the conditions combine with
AND, as the query text concatenates AND clauses). -/
def filter_data (db : List Record) (topics : List String)
    (search_term : String) (price_filter : List String) : List Record :=
  db.filter (fun r => (filter_conds topics search_term price_filter).all (evalCond r))

/-- Columns actually selected by the source's base query. -/
def source_columns : List String :=
  ["topic", "community_mame", "link", "all_skool_ranking", "free",
   "theme_rank", "visibility", "members", "price", "description"]

/-- Modelled from the spec: the column list the specification names for the
Query Builder (section 4.1); it differs from the source in the second
column's spelling. -/
def spec_columns : List String :=
  ["topic", "community_name", "link", "all_skool_ranking", "free",
   "theme_rank", "visibility", "members", "price", "description"]

/-- A SELECT prefix for a given column list, in the layout of the source's
base query. -/
def select_head (cols : List String) : String :=
  "\n    SELECT " ++ String.intercalate ", " cols
    ++ "\n    FROM skool_data WHERE 1=1\n    "

theorem select_head_source : select_head source_columns = base_query := by
  decide

/-! ### Cached Reader (execute_query, lines 14-20)

The streamlit cache_data decorator memoizes execute_query on its arguments:
a repeated call with the same (query, params) returns the stored result
without running the body. The cache is modelled as an association list from
(query text, parameter list) to the materialized rows, together with a
counter of how many times the store was actually queried. -/

/-- Cache state of the cache_data decorator: stored results plus a counter
of actual store executions (the test-observable query counter). -/
structure Cache where
  entries : List ((String × List String) × List Record)
  store_hits : Nat
deriving Repr

/-- Lookup of a key in the memo table. -/
def cache_find : List ((String × List String) × List Record) →
    String × List String → Option (List Record)
  | [], _ => none
  | (k, v) :: rest, key => if k = key then some v else cache_find rest key

/-- execute_query under memoization: on a cache hit the stored rows are
returned unchanged; on a miss the store is queried (run stands for the
connect / read_sql / close body), the result is stored, and the hit
counter increases. -/
def execute_query (run : String → List String → List Record) (c : Cache)
    (query : String) (params : List String) : List Record × Cache :=
  match cache_find c.entries (query, params) with
  | some df => (df, c)
  | none =>
      let df := run query params
      (df, ⟨((query, params), df) :: c.entries, c.store_hits + 1⟩)

/-- Connection events of one call of the execute_query body. -/
inductive DBEvent where
  | connect
  | query
  | close
deriving DecidableEq, Repr

/-- The read_sql call of line 18, which raises a database error when the
query cannot be executed (absent table, malformed SQL). -/
def read_sql_step (rows : List Record) (fails : Bool) :
    Except String (List Record) :=
  if fails then Except.error "DatabaseError" else Except.ok rows

/-- Trace of one call of the execute_query body (lines 17-20):
conn = create_connection(); df = pd.read_sql(...); conn.close(); return df.
A raise inside read_sql propagates, so the close statement is only reached
when read_sql returns normally — the body has no try/finally and no
context manager around the connection. -/
def execute_query_trace (rows : List Record) (fails : Bool) :
    List DBEvent × Except String (List Record) :=
  let opened := [DBEvent.connect]
  match read_sql_step rows fails with
  | Except.error e => (opened ++ [DBEvent.query], Except.error e)
  | Except.ok df => (opened ++ [DBEvent.query, DBEvent.close], Except.ok df)

/-! ### Pagination (lines 64-89)

rows_per_page is fixed at 20; the displayed page count of line 85 is
total_rows // rows_per_page + 1 (floor division); Next (line 81) increments
the session page only below that bound, Previous (line 76) decrements it
only above 1. -/

/-- Fixed page size (line 65). -/
def rows_per_page : Nat := 20

/-- Page count computed and displayed at lines 81 and 85:
floor(total_rows / 20) + 1. -/
def num_pages (total_rows : Nat) : Nat :=
  total_rows / rows_per_page + 1

/-- Modelled from the spec: the page count the specification states,
max(1, ceil(total_rows / 20)). -/
def pagesSpec (total_rows : Nat) : Nat :=
  max 1 ((total_rows + 19) / 20)

/-- Effect of the Next button (lines 80-82). -/
def next_page (total_rows page : Nat) : Nat :=
  if page < total_rows / rows_per_page + 1 then page + 1 else page

/-- Effect of the Previous button (lines 75-77). -/
def prev_page (page : Nat) : Nat :=
  if 1 < page then page - 1 else page

/-- A pagination button press. -/
inductive PAction where
  | previous
  | next
deriving DecidableEq, Repr

/-- One button press applied to the session page number. -/
def apply_action (total_rows page : Nat) : PAction → Nat
  | PAction.previous => prev_page page
  | PAction.next => next_page total_rows page

/-- A sequence of button presses applied to the session page number. -/
def run_actions (total_rows : Nat) (acts : List PAction) (page : Nat) : Nat :=
  acts.foldl (apply_action total_rows) page

/-- Rows shown on the current page (lines 88-89): the slice of the
filtered rows starting at (page - 1) * 20, of length at most 20. -/
def paginate (df : List Record) (page : Nat) : List Record :=
  (df.drop ((page - 1) * rows_per_page)).take rows_per_page

/-! ### Statistics Aggregator (lines 118-139)

pd.to_numeric(..., errors set to coerce) turns each price string into a
number or a missing value; the aggregates max/min/mean/median skip missing
values, so they range over the successfully parsed values and are NaN
exactly when no value parsed. Option-valued aggregates model this: none is
pandas NaN, which the Python format specifiers .2f and ,.0f render as the
text "nan". -/

/-- Numeric value of a list of decimal digit characters. -/
def digitsVal (l : List Char) : Nat :=
  l.foldl (fun a c => a * 10 + (c.toNat - 48)) 0

/-- Splitting of a character list at every occurrence of a separator
character. -/
def splitOnChar (c : Char) : List Char → List (List Char)
  | [] => [[]]
  | x :: xs =>
      let r := splitOnChar c xs
      if x = c then [] :: r
      else
        match r with
        | [] => [[x]]
        | h :: t => (x :: h) :: t

/-- Abstraction of pd.to_numeric on one cell with errors coerced: an
unsigned decimal literal (digits, optionally a point and further digits)
parses to its value, anything else (including the empty string and any
text marker) coerces to missing. pd.to_numeric also accepts signs and
exponents, which the store's non-negative prices never use. -/
def parse_to_numeric (s : String) : Option Rat :=
  match splitOnChar '.' s.data with
  | [a] =>
      if a ≠ [] ∧ a.all Char.isDigit then some (digitsVal a : Rat)
      else none
  | [a, b] =>
      if a ≠ [] ∧ b ≠ [] ∧ a.all Char.isDigit ∧ b.all Char.isDigit
      then some ((digitsVal a : Rat) + (digitsVal b : Rat) / ((10 : Rat) ^ b.length))
      else none
  | _ => none

/-- Per-row price coercion of line 127: replace the literal marker "Paid"
by missing, then coerce the text to a number. -/
def price_coerce (r : Record) : Option Rat :=
  if r.price = "Paid" then none else parse_to_numeric r.price

/-- The numeric price values the aggregates of lines 128-131 range over
(missing values are skipped by pandas aggregation). -/
def numeric_prices (rows : List Record) : List Rat :=
  rows.filterMap price_coerce

/-- Count of rows whose price is exactly the text "Paid" (line 132). -/
def paid_courses (rows : List Record) : Nat :=
  rows.countP (fun r => r.price == "Paid")

/-- Members column as numbers, for the member statistics of lines 136-139. -/
def members_values (rows : List Record) : List Rat :=
  rows.map (fun r => (r.members : Rat))

/-- Mean of a list of numbers: missing when the list is empty. -/
def meanQ (l : List Rat) : Option Rat :=
  if l = [] then none else some (l.sum / (l.length : Rat))

/-- Median as pandas computes it: the middle element of the sorted values
for odd length, the average of the two middle elements for even length,
missing for the empty list. -/
def medianQ (l : List Rat) : Option Rat :=
  let s := l.insertionSort (· ≤ ·)
  let n := s.length
  if n = 0 then none
  else if n % 2 = 1 then s[n / 2]?
  else
    match s[n / 2 - 1]?, s[n / 2]? with
    | some a, some b => some ((a + b) / 2)
    | _, _ => none

/-- Two-decimal rendering of a non-negative number, approximating
Python's .2f format (exact on the store's cent-valued prices; only the
missing branch of fmt_price below matters to the claims). -/
def fmt2 (q : Rat) : String :=
  let c : Nat := (q * 100 + 1 / 2).floor.toNat
  toString (c / 100) ++ "." ++ (if c % 100 < 10 then "0" else "") ++ toString (c % 100)

/-- Comma insertion every three digits from the right, on a reversed digit
list. -/
def commaChunks : List Char → List Char
  | c1 :: c2 :: c3 :: c4 :: rest => c1 :: c2 :: c3 :: ',' :: commaChunks (c4 :: rest)
  | l => l

/-- Thousands-separated rendering of a non-negative number rounded to an
integer, approximating Python's ,.0f format. -/
def fmt0 (q : Rat) : String :=
  let n : Nat := (q + 1 / 2).floor.toNat
  String.mk ((commaChunks (toString n).data.reverse).reverse)

/-- A possibly-missing price value as the .2f format renders it: NaN
prints as the text "nan". -/
def fmt_price (v : Option Rat) : String :=
  match v with
  | none => "nan"
  | some q => fmt2 q

/-- A possibly-missing member value as the ,.0f format renders it: NaN
prints as the text "nan". -/
def fmt_members (v : Option Rat) : String :=
  match v with
  | none => "nan"
  | some q => fmt0 q

/-- The five lines of the price statistics block (lines 126-132). -/
def price_stats_lines (rows : List Record) : List String :=
  ["Max Price: $" ++ fmt_price (numeric_prices rows).max?,
   "Min Price: $" ++ fmt_price (numeric_prices rows).min?,
   "Mean Price: $" ++ fmt_price (meanQ (numeric_prices rows)),
   "Median Price: $" ++ fmt_price (medianQ (numeric_prices rows)),
   "Paid Courses: " ++ toString (paid_courses rows)]

/-- The four lines of the member statistics block (lines 135-139). -/
def member_stats_lines (rows : List Record) : List String :=
  ["Max Members: " ++ fmt_members (members_values rows).max?,
   "Min Members: " ++ fmt_members (members_values rows).min?,
   "Mean Members: " ++ fmt_members (meanQ (members_values rows)),
   "Median Members: " ++ fmt_members (medianQ (members_values rows))]

/-- Sample rows used to evaluate the theorems below on concrete data. -/
def sample_free : Record :=
  ⟨"Tech", "A", "https://x", 1, 1, 1, "public", 10, "0", "intro course"⟩

/-- A paid sample row with a numeric price. -/
def sample_paid : Record :=
  ⟨"Tech", "B", "https://y", 2, 0, 2, "public", 20, "49", "deep material"⟩

/-- A sample row whose price text is neither numeric nor the Paid marker. -/
def sample_na : Record :=
  ⟨"Art", "C", "https://z", 3, 0, 3, "private", 5, "N/A", "sketching"⟩

/-- A sample row carrying the literal Paid marker as its price. -/
def sample_marker : Record :=
  ⟨"Biz", "D", "https://w", 4, 0, 4, "public", 7, "Paid", "mentorship"⟩

/-! ### Helper lemmas -/

theorem data_append (a b : String) : (a ++ b).data = a.data ++ b.data := rfl

theorem listPre_append_self (l m : List Char) : listPre l (l ++ m) = true := by
  induction l with
  | nil => rfl
  | cons a as ih => simp [listPre, ih]

theorem placeholders_count (n : Nat) : (placeholders n).data.count '?' = n := by
  induction n with
  | zero => decide
  | succ m ih =>
    cases m with
    | zero => decide
    | succ k =>
      have he : placeholders (k + 2) = "?," ++ placeholders (k + 1) := rfl
      rw [he, data_append, List.count_append]
      have h1 : ("?,".data).count '?' = 1 := by decide
      rw [h1] at *
      omega

/-! ### Claims -/

/-- C5: with an empty topic set, an empty search term, and an empty price
selection, filter_data builds exactly the unrestricted base query with an
empty parameter list, and its result over any table is the whole table. -/
theorem C5_empty_criteria_unrestricted (db : List Record) :
    filter_data_query [] "" [] = (base_query, []) ∧ filter_data db [] "" [] = db := by
  refine ⟨rfl, ?_⟩
  simp [filter_data, filter_conds, price_conds]

/-- C3: calling the cached reader twice with the identical (query text,
parameter list) pair returns row-for-row identical sequences, and the
second call neither queries the store again (the store-hit counter is
unchanged) nor changes the cache. -/
theorem C3_cached_reader_idempotent (run : String → List String → List Record)
    (c : Cache) (query : String) (params : List String) :
    (execute_query run (execute_query run c query params).2 query params).1
      = (execute_query run c query params).1 ∧
    (execute_query run (execute_query run c query params).2 query params).2
      = (execute_query run c query params).2 := by
  cases h : cache_find c.entries (query, params) with
  | some df => simp [execute_query, h]
  | none =>
      have h2 : cache_find (((query, params), run query params) :: c.entries)
          (query, params) = some (run query params) := by
        simp [cache_find]
      simp [execute_query, h, h2]

/-- C7 counterexample: on a call whose query fails, the connection is not
closed — the body of execute_query has no try/finally, so the close of
line 19 is skipped when read_sql raises, refuting the guarantee the claim
states for failing calls. -/
theorem C7_close_not_guaranteed_cex :
    DBEvent.close ∉ (execute_query_trace [] true).1 := by
  decide

/-- C7 amended: every call opens a fresh connection and executes the query;
on success all rows are materialized, the connection is closed before the
rows are returned; but if the query fails, the error propagates and the
connection is not closed. -/
theorem C7_connection_lifecycle (rows : List Record) (fails : Bool) :
    ((execute_query_trace rows fails).1).head? = some DBEvent.connect ∧
    DBEvent.query ∈ (execute_query_trace rows fails).1 ∧
    ((execute_query_trace rows false).1).getLast? = some DBEvent.close ∧
    (execute_query_trace rows false).2 = Except.ok rows ∧
    DBEvent.close ∉ (execute_query_trace rows true).1 := by
  cases fails <;> simp [execute_query_trace, read_sql_step]

/-- C1 counterexample: at 20 total rows the displayed page count is 2 while
max(1, ceil(20/20)) is 1, and Next at page 1 — the last page according to
the claim — increments the page instead of being a no-op. -/
theorem C1_pages_cex :
    num_pages 20 = 2 ∧ pagesSpec 20 = 1 ∧ next_page 20 1 = 2 := by
  decide

/-- C1 amended: the page count computed and displayed is
total_rows / 20 + 1, which equals max(1, ceil(T/20)) except when T is a
positive multiple of 20, where it is one greater; Next increments the
current page exactly when it is strictly below that computed count, so
Next at the computed last page is a no-op. -/
theorem C1_pagination_pages (T : Nat) :
    num_pages T = (if T % 20 = 0 ∧ 0 < T then pagesSpec T + 1 else pagesSpec T) ∧
    next_page T (num_pages T) = num_pages T ∧
    ∀ p, p < num_pages T → next_page T p = p + 1 := by
  refine ⟨?_, ?_, ?_⟩
  · simp only [num_pages, pagesSpec, rows_per_page, Nat.max_def]
    split <;> split <;> omega
  · simp [next_page, num_pages, rows_per_page]
  · intro p hp
    have hp' : p < T / 20 + 1 := by simpa [num_pages, rows_per_page] using hp
    simp [next_page, rows_per_page, hp']

/-- C1 witness: with 45 rows (3 computed pages), Next at page 2 moves to
page 3. -/
theorem C1_pagination_pages_witness : next_page 45 2 = 3 :=
  (C1_pagination_pages 45).2.2 2 (by decide)

/-- Bounds invariant of the session page number under button presses. -/
theorem run_actions_bounds (T : Nat) (acts : List PAction) :
    ∀ p, 1 ≤ p → p ≤ num_pages T →
      1 ≤ run_actions T acts p ∧ run_actions T acts p ≤ num_pages T := by
  induction acts with
  | nil => exact fun p h1 h2 => ⟨h1, h2⟩
  | cons a rest ih =>
      intro p h1 h2
      have hn : num_pages T = T / rows_per_page + 1 := rfl
      have hstep : 1 ≤ apply_action T p a ∧ apply_action T p a ≤ num_pages T := by
        cases a with
        | previous =>
            simp only [apply_action, prev_page]
            constructor <;> (split <;> omega)
        | next =>
            simp only [apply_action, next_page]
            constructor <;> (split <;> omega)
      exact ih (apply_action T p a) hstep.1 hstep.2

/-- C2 counterexample: at 20 total rows, a single Next press starting from
page 1 moves the session page to 2, outside the claimed range
[1, max(1, ceil(20/20))] = [1, 1]. -/
theorem C2_bounds_cex :
    run_actions 20 [PAction.next] 1 = 2 ∧ pagesSpec 20 = 1 := by
  decide

/-- C2 amended: for every sequence of Previous and Next presses starting
from page 1 over T total rows, the session page number stays within
[1, T / 20 + 1], the page count the code computes. -/
theorem C2_page_in_bounds (T : Nat) (acts : List PAction) :
    1 ≤ run_actions T acts 1 ∧ run_actions T acts 1 ≤ num_pages T :=
  run_actions_bounds T acts 1 (le_refl 1) (by simp only [num_pages, rows_per_page]; omega)

/-- C4: when the price selection contains exactly one of Free and Paid,
every row filter_data returns carries the matching free flag (1 for Free,
0 for Paid); when it contains both or neither, the result set is the one
with no price restriction at all. -/
theorem C4_price_filter_flags (db : List Record) (topics : List String)
    (search_term : String) (price_filter : List String) :
    (("Free" ∈ price_filter ∧ "Paid" ∉ price_filter) →
      ∀ r ∈ filter_data db topics search_term price_filter, r.free = 1) ∧
    (("Paid" ∈ price_filter ∧ "Free" ∉ price_filter) →
      ∀ r ∈ filter_data db topics search_term price_filter, r.free = 0) ∧
    ((("Free" ∈ price_filter ∧ "Paid" ∈ price_filter) ∨
      ("Free" ∉ price_filter ∧ "Paid" ∉ price_filter)) →
      filter_data db topics search_term price_filter
        = filter_data db topics search_term []) := by
  refine ⟨?_, ?_, ?_⟩
  · intro h r hr
    have hne : price_filter ≠ [] := List.ne_nil_of_mem h.1
    have hpc : price_conds price_filter = [Cond.freeEq 1] := by
      simp only [price_conds, if_neg hne, if_pos h]
    have hm := List.of_mem_filter hr
    simp only [filter_conds, hpc, List.all_append, List.all_cons, List.all_nil,
      Bool.and_eq_true, evalCond, beq_iff_eq] at hm
    exact hm.2.1
  · intro h r hr
    have hne : price_filter ≠ [] := List.ne_nil_of_mem h.1
    have hn1 : ¬("Free" ∈ price_filter ∧ "Paid" ∉ price_filter) :=
      fun hc => h.2 hc.1
    have hpc : price_conds price_filter = [Cond.freeEq 0] := by
      simp only [price_conds, if_neg hne, if_neg hn1, if_pos h]
    have hm := List.of_mem_filter hr
    simp only [filter_conds, hpc, List.all_append, List.all_cons, List.all_nil,
      Bool.and_eq_true, evalCond, beq_iff_eq] at hm
    exact hm.2.1
  · intro hb
    have hpc : price_conds price_filter = price_conds [] := by
      cases hb with
      | inl hboth =>
          have hne : price_filter ≠ [] := List.ne_nil_of_mem hboth.1
          have hn1 : ¬("Free" ∈ price_filter ∧ "Paid" ∉ price_filter) :=
            fun hc => hc.2 hboth.2
          have hn2 : ¬("Paid" ∈ price_filter ∧ "Free" ∉ price_filter) :=
            fun hc => hc.2 hboth.1
          simp only [price_conds, if_neg hne, if_neg hn1, if_neg hn2]
          simp
      | inr hneither =>
          by_cases hpf : price_filter = []
          · rw [hpf]
          · have hn1 : ¬("Free" ∈ price_filter ∧ "Paid" ∉ price_filter) :=
              fun hc => hneither.1 hc.1
            have hn2 : ¬("Paid" ∈ price_filter ∧ "Free" ∉ price_filter) :=
              fun hc => hneither.2 hc.1
            simp only [price_conds, if_neg hpf, if_neg hn1, if_neg hn2]
            simp
    simp only [filter_data, filter_conds, hpc]

/-- C4 witness: with one free and one paid sample row, filtering on Free
keeps the free row with flag 1, filtering on Paid keeps the paid row with
flag 0, and selecting both price types returns the unrestricted result. -/
theorem C4_price_filter_flags_witness :
    sample_free.free = 1 ∧ sample_paid.free = 0 ∧
    filter_data [sample_free, sample_paid] [] "" ["Free", "Paid"]
      = filter_data [sample_free, sample_paid] [] "" [] :=
  ⟨(C4_price_filter_flags [sample_free, sample_paid] [] "" ["Free"]).1
      ⟨by decide, by decide⟩ sample_free (by decide),
   (C4_price_filter_flags [sample_free, sample_paid] [] "" ["Paid"]).2.1
      ⟨by decide, by decide⟩ sample_paid (by decide),
   (C4_price_filter_flags [sample_free, sample_paid] [] "" ["Free", "Paid"]).2.2
      (Or.inl ⟨by decide, by decide⟩)⟩

/-! ### C6: the selected columns and the parameter list -/

theorem listPre_str (a b : String) : listPre a.data ((a ++ b)).data = true := by
  rw [data_append]; exact listPre_append_self _ _

theorem str_append_assoc (a b c : String) : a ++ b ++ c = a ++ (b ++ c) := by
  apply String.ext; simp [data_append]

theorem topic_clause_count (n : Nat) :
    (topic_clause n).data.count '?' = n := by
  have h1 : (" AND topic IN (").data.count '?' = 0 := by decide
  have h2 : (")").data.count '?' = 0 := by decide
  simp only [topic_clause, data_append, List.count_append, placeholders_count,
    h1, h2]
  omega

theorem search_clause_count : (search_clause).data.count '?' = 1 := by decide

theorem price_clause_count (price_filter : List String) :
    (price_clause price_filter).data.count '?' = 0 := by
  unfold price_clause
  split
  · decide
  · split
    · decide
    · split <;> decide

/-- C6 counterexample: the SELECT clause the specification names, with the
column community_name, is not a prefix of the query filter_data builds
(the source selects the column community_mame instead). -/
theorem C6_columns_cex :
    listPre (select_head spec_columns).data
      ((filter_data_query [] "" []).1).data = false := by
  decide

/-- C6 amended: for every FilterCriteria the built query starts with the
SELECT of exactly the fixed columns topic, community_mame, link,
all_skool_ranking, free, theme_rank, visibility, members, price,
description, and the number of placeholders in the query text equals the
length of the parameter list (placeholders and parameters are appended
clause by clause in the same order: topics first, then the search
pattern). -/
theorem C6_query_columns_params (topics : List String) (search_term : String)
    (price_filter : List String) :
    listPre (select_head source_columns).data
      ((filter_data_query topics search_term price_filter).1).data = true ∧
    ((filter_data_query topics search_term price_filter).1).data.count '?'
      = ((filter_data_query topics search_term price_filter).2).length := by
  constructor
  · rw [select_head_source]
    simp only [filter_data_query]
    rw [str_append_assoc, str_append_assoc]
    exact listPre_str _ _
  · have hbase : base_query.data.count '?' = 0 := by decide
    have h0 : ("" : String).data.count '?' = 0 := by decide
    by_cases ht : topics = [] <;> by_cases hs : search_term = "" <;>
      simp [filter_data_query, ht, hs, data_append, List.count_append,
        List.length_append, hbase, h0, topic_clause_count, search_clause_count,
        price_clause_count]

/-- C8 counterexample: over the empty filtered set, none of the price or
member statistic lines contains the text "no data" — the pandas aggregates
come back as NaN and the format specifiers print them as "nan". -/
theorem C8_no_data_cex :
    ((price_stats_lines []).any (fun l => listSub "no data".data l.data)) = false ∧
    ((member_stats_lines []).any (fun l => listSub "no data".data l.data)) = false := by
  decide

/-- C8 amended: over the empty filtered set every numeric aggregate is
missing, the statistics blocks render them as the text "nan" (with a Paid
count of 0), and no computation fault occurs — the display functions are
total and produce exactly these lines. -/
theorem C8_empty_stats_nan :
    price_stats_lines [] =
      ["Max Price: $nan", "Min Price: $nan", "Mean Price: $nan",
       "Median Price: $nan", "Paid Courses: 0"] ∧
    member_stats_lines [] =
      ["Max Members: nan", "Min Members: nan", "Mean Members: nan",
       "Median Members: nan"] := by
  decide

/-- C9: there is a non-empty search term containing a LIKE wildcard
character for which filter_data returns a different row set than literal
substring matching on the description — the term is spliced into the LIKE
pattern, so its percent sign matches arbitrary text. -/
theorem C9_like_wildcards :
    ∃ (term : String) (db : List Record),
      term ≠ "" ∧ ('%' ∈ term.data ∨ '_' ∈ term.data) ∧
      filter_data db [] term []
        ≠ db.filter (fun r => listSub term.data r.description.data) := by
  refine ⟨"a%b", [⟨"T", "N", "L", 1, 1, 1, "v", 1, "0", "aXb"⟩], ?_, ?_, ?_⟩
  · decide
  · exact Or.inl (by decide)
  · decide

/-- C10: the reported Paid count is the number of rows whose price text is
exactly "Paid", and a row with any other non-numeric price text is coerced
to missing (so it is excluded from the numeric price aggregates) while not
being counted as Paid. -/
theorem C10_paid_count (rows : List Record) (r : Record)
    (hp : r.price ≠ "Paid") (hn : parse_to_numeric r.price = none) :
    paid_courses rows = (rows.filter (fun x => x.price == "Paid")).length ∧
    price_coerce r = none ∧
    numeric_prices [r] = [] ∧
    paid_courses [r] = 0 := by
  refine ⟨?_, ?_, ?_, ?_⟩
  · simp [paid_courses, List.countP_eq_length_filter]
  · simp [price_coerce, hp, hn]
  · simp [numeric_prices, price_coerce, hp, hn]
  · simp [paid_courses, List.countP_cons, hp]

/-- C10 witness: over a row priced "N/A" and a row carrying the Paid
marker, the Paid count is the length of the exact-match filter, and the
"N/A" row is coerced to missing without being counted as Paid. -/
theorem C10_paid_count_witness :
    paid_courses [sample_na, sample_marker]
      = ([sample_na, sample_marker].filter (fun x => x.price == "Paid")).length ∧
    price_coerce sample_na = none ∧
    numeric_prices [sample_na] = [] ∧
    paid_courses [sample_na] = 0 :=
  C10_paid_count [sample_na, sample_marker] sample_na (by decide) (by decide)

end SkoolDash
